import Mathlib

/-!
Verification of the TacticGL core: the `PitchScale` coordinate mapper,
the `PitchGeometry` marking generator, the `RenderEngine` backend selector
and the `BaseRenderer`/`SVGRenderer` lifecycle, embedded shallowly.

Numbers are modelled as exact rationals (`ℚ`); the transcendental library
calls `Math.acos` and the constant `Math.PI` are uninterpreted parameters
(`acos : ℚ → ℚ`, `pi : ℚ`), mirroring that the source calls them as
opaque floating-point routines.
-/

namespace TacticGL

/-! ### Scale data model (src/packages/core/src/scales/PitchScale.ts) -/

structure Dimensions where
  width : ℚ
  height : ℚ
deriving DecidableEq, Repr

structure Padding where
  top : ℚ
  right : ℚ
  bottom : ℚ
  left : ℚ
deriving DecidableEq, Repr

structure Point where
  x : ℚ
  y : ℚ
deriving DecidableEq, Repr

inductive PitchSide
  | horizontal
  | vertical
deriving DecidableEq, Repr

/-- `PitchScale`: immutable value object carrying dimensions, padding and
    the long-axis direction (the direction field is unused by the two
    conversion methods, exactly as in the source). -/
structure PitchScale where
  dimensions : Dimensions
  padding : Padding
  direction : PitchSide := .horizontal
deriving DecidableEq, Repr

/-- FIFA standard field (105 × 68), the constructor default. -/
def FIFA_STANDARD_DIMENSIONS : Dimensions := ⟨105, 68⟩

/-- Zero padding on all sides, the constructor default. -/
def DEFAULT_PADDING : Padding := ⟨0, 0, 0, 0⟩

/-- `PitchScale.toPixel`: `baseX = (normX/100)*width`, `pixelX = baseX + padding.left`
    (and the analogue on y with height / padding.top).  No clamping. -/
def PitchScale.toPixel (s : PitchScale) (p : Point) : Point :=
  let baseX := p.x / 100 * s.dimensions.width
  let baseY := p.y / 100 * s.dimensions.height
  { x := baseX + s.padding.left, y := baseY + s.padding.top }

/-- `PitchScale.toNormalized`: `baseX = pixelX - padding.left`,
    `normX = (baseX/width)*100` (and the analogue on y).  No clamping. -/
def PitchScale.toNormalized (s : PitchScale) (p : Point) : Point :=
  let baseX := p.x - s.padding.left
  let baseY := p.y - s.padding.top
  { x := baseX / s.dimensions.width * 100, y := baseY / s.dimensions.height * 100 }

/-- `new PitchScale({width:105, height:68})`. -/
def standardScale : PitchScale := ⟨FIFA_STANDARD_DIMENSIONS, DEFAULT_PADDING, .horizontal⟩

/-- A scale with non-zero padding, used as a round-trip test input. -/
def paddedScale : PitchScale := ⟨⟨105, 68⟩, ⟨3, 5, 2, 7⟩, .horizontal⟩

/-- A degenerate scale whose width is 0 (the constructor accepts it). -/
def zeroWidthScale : PitchScale := ⟨⟨0, 68⟩, DEFAULT_PADDING, .horizontal⟩

end TacticGL

namespace TacticGL

/-! ### Pitch geometry (src/packages/charts/src/pitch: PitchGeometry.ts, constants.ts) -/

inductive GType
  | rect
  | circle
  | line
  | arc
deriving DecidableEq, Repr

inductive Side
  | left
  | right
deriving DecidableEq, Repr

/-- `GeometryObject`: all shape fields are optional, as in the TS interface. -/
structure GeometryObject where
  id : String
  type : GType
  x : Option ℚ := none
  y : Option ℚ := none
  width : Option ℚ := none
  height : Option ℚ := none
  cx : Option ℚ := none
  cy : Option ℚ := none
  r : Option ℚ := none
  x1 : Option ℚ := none
  y1 : Option ℚ := none
  x2 : Option ℚ := none
  y2 : Option ℚ := none
  startAngle : Option ℚ := none
  endAngle : Option ℚ := none
deriving DecidableEq, Repr

def FIFA_DIMENSIONS : Dimensions := ⟨105, 68⟩

def PENALTY_AREA : Dimensions := ⟨16.5, 40.32⟩

def GOAL_AREA : Dimensions := ⟨5.5, 18.32⟩

def CENTER_CIRCLE_RADIUS : ℚ := 9.15

def PENALTY_SPOT_DISTANCE : ℚ := 11

def normalizeX (d : Dimensions) (val : ℚ) : ℚ := val / d.width * 100

def normalizeY (d : Dimensions) (val : ℚ) : ℚ := val / d.height * 100

/-- `PitchGeometry.transform`: the single shared orientation transform.
    `pi` stands for the float constant `Math.PI`. -/
def transform (pi : ℚ) (o : PitchSide) (geo : GeometryObject) : GeometryObject :=
  match o with
  | .horizontal => geo
  | .vertical =>
    match geo.type with
    | .rect => { geo with x := geo.y, y := geo.x, width := geo.height, height := geo.width }
    | .circle => { geo with cx := geo.cy, cy := geo.cx }
    | .line => { geo with x1 := geo.y1, y1 := geo.x1, x2 := geo.y2, y2 := geo.x2 }
    | .arc =>
      { geo with
        cx := geo.cy, cy := geo.cx,
        startAngle := geo.startAngle.map (· + pi / 2),
        endAngle := geo.endAngle.map (· + pi / 2) }

def getOutline (pi : ℚ) (d : Dimensions) (o : PitchSide) : GeometryObject :=
  transform pi o
    { id := "outline", type := .rect, x := some 0, y := some 0,
      width := some 100, height := some 100 }

def getCenterLine (pi : ℚ) (d : Dimensions) (o : PitchSide) : GeometryObject :=
  transform pi o
    { id := "centerLine", type := .line, x1 := some 50, y1 := some 0,
      x2 := some 50, y2 := some 100 }

def getCenterCircle (pi : ℚ) (d : Dimensions) (o : PitchSide) : GeometryObject :=
  transform pi o
    { id := "centerCircle", type := .circle, cx := some 50, cy := some 50,
      r := some (normalizeX d CENTER_CIRCLE_RADIUS) }

def getPenaltyArea (pi : ℚ) (d : Dimensions) (o : PitchSide) (side : Side) : GeometryObject :=
  let w := normalizeX d PENALTY_AREA.width
  let h := normalizeY d PENALTY_AREA.height
  let y := (100 - h) / 2
  let x := match side with | .left => 0 | .right => 100 - w
  transform pi o
    { id := match side with | .left => "penaltyAreaLeft" | .right => "penaltyAreaRight",
      type := .rect, x := some x, y := some y, width := some w, height := some h }

def getGoalArea (pi : ℚ) (d : Dimensions) (o : PitchSide) (side : Side) : GeometryObject :=
  let w := normalizeX d GOAL_AREA.width
  let h := normalizeY d GOAL_AREA.height
  let y := (100 - h) / 2
  let x := match side with | .left => 0 | .right => 100 - w
  transform pi o
    { id := match side with | .left => "goalAreaLeft" | .right => "goalAreaRight",
      type := .rect, x := some x, y := some y, width := some w, height := some h }

def getPenaltySpot (pi : ℚ) (d : Dimensions) (o : PitchSide) (side : Side) : GeometryObject :=
  let dist := normalizeX d PENALTY_SPOT_DISTANCE
  let x := match side with | .left => dist | .right => 100 - dist
  transform pi o
    { id := match side with | .left => "penaltySpotLeft" | .right => "penaltySpotRight",
      type := .circle, cx := some x, cy := some 50, r := some 0.4 }

def getCenterSpot (pi : ℚ) (d : Dimensions) (o : PitchSide) : GeometryObject :=
  transform pi o
    { id := "centerSpot", type := .circle, cx := some 50, cy := some 50, r := some 0.4 }

/-- Penalty-spot x position in meters from the left goal line. -/
def penaltyArcSpotX (d : Dimensions) (side : Side) : ℚ :=
  match side with
  | .left => PENALTY_SPOT_DISTANCE
  | .right => d.width - PENALTY_SPOT_DISTANCE

/-- Penalty-area boundary-line x position in meters from the left goal line. -/
def penaltyArcAreaX (d : Dimensions) (side : Side) : ℚ :=
  match side with
  | .left => PENALTY_AREA.width
  | .right => d.width - PENALTY_AREA.width

/-- Horizontal distance in meters from the penalty spot to the area line. -/
def penaltyArcDist (d : Dimensions) (side : Side) : ℚ :=
  |penaltyArcAreaX d side - penaltyArcSpotX d side|

/-- The argument passed to `Math.acos` inside `getPenaltyArc`. -/
def penaltyArcAcosArg (d : Dimensions) (side : Side) : ℚ :=
  penaltyArcDist d side / CENTER_CIRCLE_RADIUS

/-- `PitchGeometry.getPenaltyArc`.  `acos` stands for `Math.acos` and `pi`
    for `Math.PI`, both uninterpreted. -/
def getPenaltyArc (acos : ℚ → ℚ) (pi : ℚ) (d : Dimensions) (o : PitchSide)
    (side : Side) : GeometryObject :=
  let r := normalizeX d CENTER_CIRCLE_RADIUS
  let angle := acos (penaltyArcAcosArg d side)
  let cx :=
    match side with
    | .left => normalizeX d PENALTY_SPOT_DISTANCE
    | .right => 100 - normalizeX d PENALTY_SPOT_DISTANCE
  let startAngle := match side with | .left => -angle | .right => pi - angle
  let endAngle := match side with | .left => angle | .right => pi + angle
  transform pi o
    { id := match side with | .left => "penaltyArcLeft" | .right => "penaltyArcRight",
      type := .arc, cx := some cx, cy := some 50, r := some r,
      startAngle := some startAngle, endAngle := some endAngle }

def getAllGeometries (acos : ℚ → ℚ) (pi : ℚ) (d : Dimensions) (o : PitchSide) :
    List GeometryObject :=
  [getOutline pi d o,
   getPenaltyArea pi d o .left,
   getPenaltyArea pi d o .right,
   getGoalArea pi d o .left,
   getGoalArea pi d o .right,
   getCenterCircle pi d o,
   getPenaltyArc acos pi d o .left,
   getPenaltyArc acos pi d o .right,
   getCenterLine pi d o,
   getCenterSpot pi d o,
   getPenaltySpot pi d o .left,
   getPenaltySpot pi d o .right]

end TacticGL

namespace TacticGL

/-! ### Render engine (src/packages/core/src/engine/RenderEngine.ts)

The browser probes `isWebGLSupported` / `isCanvasSupported` /
`isSVGSupported` are environment inputs, modelled as a record of booleans.
A thrown JS error is an `Except.error`; the two error shapes are the typed
`RendererNotSupportedError` and the plain `Error('... is not yet
implemented')` thrown by `_createRenderer`. -/

inductive RendererType
  | webgl
  | canvas
  | svg
deriving DecidableEq, Repr

/-- `RendererPreference`: a concrete type or `'auto'`. -/
inductive RendererPref
  | auto
  | want (t : RendererType)
deriving DecidableEq, Repr

/-- The three capability probes of the running browser. -/
structure BrowserEnv where
  webgl : Bool
  canvas : Bool
  svg : Bool
deriving DecidableEq, Repr

inductive EngineError
  | rendererNotSupported (t : RendererType)
  | notYetImplemented (t : RendererType)
deriving DecidableEq, Repr

/-- Outcome of `_selectRenderer`: the chosen backend and `fallbackUsed`
    (the renderer instance is determined by its type). -/
structure Selection where
  rtype : RendererType
  fallbackUsed : Bool
deriving DecidableEq, Repr

def isRendererSupported (env : BrowserEnv) (t : RendererType) : Bool :=
  match t with
  | .webgl => env.webgl
  | .canvas => env.canvas
  | .svg => env.svg

/-- `_createRenderer`: only the SVG backend is implemented; the other two
    branches throw a plain `Error`. -/
def createRenderer (t : RendererType) : Except EngineError RendererType :=
  match t with
  | .svg => .ok .svg
  | .canvas => .error (.notYetImplemented .canvas)
  | .webgl => .error (.notYetImplemented .webgl)

def getFallbackOrder (requested : RendererType) : List RendererType :=
  match requested with
  | .webgl => [.canvas, .svg]
  | .canvas => [.svg]
  | .svg => [.svg]

/-- The loop body of `_fallback`: first supported type in the chain is
    created (propagating `_createRenderer`'s throw); if none is supported,
    an `SVGRenderer` is constructed directly. -/
def fallbackLoop (env : BrowserEnv) : List RendererType → Except EngineError Selection
  | [] => .ok ⟨.svg, true⟩
  | t :: rest =>
    if isRendererSupported env t then (createRenderer t).map (⟨·, true⟩)
    else fallbackLoop env rest

def engineFallback (env : BrowserEnv) (requested : RendererType) :
    Except EngineError Selection :=
  fallbackLoop env (getFallbackOrder requested)

/-- `_selectBestAvailable`: the WebGL and Canvas branches are empty stubs;
    both remaining paths construct an `SVGRenderer` with
    `fallbackUsed = false`. -/
def selectBestAvailable (env : BrowserEnv) : Except EngineError Selection :=
  if env.svg then .ok ⟨.svg, false⟩ else .ok ⟨.svg, false⟩

/-- `_selectRenderer`, the constructor's selection logic. -/
def selectRenderer (env : BrowserEnv) (pref : RendererPref) (force : Bool) :
    Except EngineError Selection :=
  match pref with
  | .auto => selectBestAvailable env
  | .want t =>
    if isRendererSupported env t then (createRenderer t).map (⟨·, false⟩)
    else if force then .error (.rendererNotSupported t)
    else engineFallback env t

/-- Browser where WebGL is unavailable but Canvas and SVG probe as
    supported — a perfectly ordinary environment. -/
def envCanvasOnly : BrowserEnv := ⟨false, true, true⟩

/-- Browser where only SVG probes as supported. -/
def envSvgOnly : BrowserEnv := ⟨false, false, true⟩

end TacticGL

namespace TacticGL

/-! ### Renderer lifecycle model (BaseRenderer.ts / SVGRenderer.ts)

The DOM inside the renderer's `<svg>` root is modelled as a flat list of
nodes carrying the attributes the claims speak about: the optional `id`
attribute, the position attributes, and whether a CSS transition hint has
been applied.  Event subscribers are modelled as a registry of
`(event, callbackId)` pairs; an emission delivers to every currently
registered callback of that event, and a run's deliveries are collected as
the list of invoked callback ids. -/

inductive REvent
  | evInit
  | evRender
  | evUpdate
  | evClear
  | evDestroy
  | evError
  | evLayerAdded
  | evLayerRemoved
deriving DecidableEq, Repr

/-- A rendered SVG node (`circle`, `rect`, ...) as far as `update` can
    observe and mutate it. -/
structure SVGNode where
  nodeId : Option String
  posX : Option ℚ
  posY : Option ℚ
  transitionMs : Option ℚ
deriving DecidableEq, Repr

inductive RElemType
  | circle
  | rect
  | line
  | path
  | text
  | group
deriving DecidableEq, Repr

/-- A `RenderElement` as consumed by `update`: type, position fields and
    the identifying `id` attribute (the attributes map beyond `id` plays no
    role in the claims). -/
structure RenderElem where
  rtype : RElemType
  x : Option ℚ
  y : Option ℚ
  attrId : Option String
deriving DecidableEq, Repr

/-- `TransitionConfig`: optional duration (ms); easing is irrelevant to the
    claims. -/
structure TransitionCfg where
  duration : Option ℚ
deriving DecidableEq, Repr

/-- State of an `SVGRenderer`: the base-class fields (`_isInitialized`,
    `_container`, `_layers`, `_eventHandlers`) and the subclass fields
    (`_svg`, `_svgLayers` plus the nodes rendered into the svg). -/
structure RState where
  isInitialized : Bool
  container : Option Unit
  baseLayers : List (String × Int)
  handlers : List (REvent × Nat)
  svg : Bool
  svgLayers : List (String × Int)
  dom : List SVGNode
deriving DecidableEq, Repr

/-- A freshly constructed renderer (`new SVGRenderer()`). -/
def freshState : RState := ⟨false, none, [], [], false, [], []⟩

/-- `emit`: callback ids invoked when `event` is emitted in state `st`,
    in registration order. -/
def emit (st : RState) (event : REvent) : List Nat :=
  (st.handlers.filter (fun h => h.1 = event)).map (fun h => h.2)

/-- `on`: `Set.add` of the callback (ignoring de-duplication, which the
    claims do not touch). -/
def onEvent (st : RState) (event : REvent) (cb : Nat) : RState :=
  { st with handlers := st.handlers ++ [(event, cb)] }

/-- `Map.set` semantics of a JS `Map<string, Layer>`: an existing key keeps
    its insertion position and gets the new value; a new key is appended. -/
def setLayer (l : List (String × Int)) (id : String) (z : Int) : List (String × Int) :=
  if l.any (fun p => p.1 = id) then
    l.map (fun p => if p.1 = id then (id, z) else p)
  else l ++ [(id, z)]

/-- `Map.delete` semantics. -/
def deleteLayer (l : List (String × Int)) (id : String) : List (String × Int) :=
  l.filter (fun p => p.1 ≠ id)

/-- `getLayers()`: `Array.from(map.values()).sort((a,b) => a.zIndex - b.zIndex)`
    — a stable sort ascending by zIndex, modelled by insertion sort. -/
def sortLayers (l : List (String × Int)) : List (String × Int) :=
  List.insertionSort (fun a b => a.2 ≤ b.2) l

/-- `SVGRenderer.getLayers()` reads `_svgLayers`. -/
def getLayersModel (st : RState) : List (String × Int) :=
  sortLayers st.svgLayers

/-- `SVGRenderer.addLayer`: requires `_svg` to exist, registers the layer
    under its id and emits `layerAdded`. -/
def svgAddLayer (st : RState) (id : String) (z : Int) :
    Except String (RState × List Nat) :=
  if !st.svg then .error "Renderer must be initialized before adding layers"
  else
    let st2 := { st with svgLayers := setLayer st.svgLayers id z }
    .ok (st2, emit st2 .evLayerAdded)

/-- `SVGRenderer.removeLayer`: no-op when the id is unknown, otherwise
    deletes the layer and emits `layerRemoved`. -/
def svgRemoveLayer (st : RState) (id : String) : RState × List Nat :=
  if st.svgLayers.any (fun p => p.1 = id) then
    let st2 := { st with svgLayers := deleteLayer st.svgLayers id }
    (st2, emit st2 .evLayerRemoved)
  else (st, [])

/-- A sequence of layer operations against one renderer. -/
inductive LayerOp
  | add (id : String) (z : Int)
  | remove (id : String)

/-- The layer registry reached from an empty registry by a sequence of
    add/remove operations. -/
def applyLayerOps (ops : List LayerOp) : List (String × Int) :=
  ops.foldl (fun l op =>
    match op with
    | .add id z => setLayer l id z
    | .remove id => deleteLayer l id) []

/-- `_createSVGElement`, restricted to the fields the model carries: the
    node keeps the element's position and `id` attribute. -/
def createNode (e : RenderElem) : SVGNode :=
  ⟨e.attrId, e.x, e.y, none⟩

/-- `SVGRenderer.render`: guarded by `_svg` and `isInitialized`; converts
    the elements to nodes appended into the svg and emits `render`. -/
def svgRender (st : RState) (elements : Option (List RenderElem)) :
    Except String (RState × List Nat) :=
  if !st.svg || !st.isInitialized then
    .error "Renderer must be initialized before rendering"
  else
    let st2 :=
      match elements with
      | some es => { st with dom := st.dom ++ es.map createNode }
      | none => st
    .ok (st2, emit st2 .evRender)

/-- `_updateElementAttributes` preceded by setting the CSS transition:
    position fields overwrite when present, the transition duration
    (default 300) is recorded on the node. -/
def updateNode (tr : TransitionCfg) (e : RenderElem) (n : SVGNode) : SVGNode :=
  { n with
    transitionMs := some (tr.duration.getD 300),
    posX := match e.x with | some v => some v | none => n.posX,
    posY := match e.y with | some v => some v | none => n.posY }

/-- Mutate the first node whose `id` attribute matches
    (`querySelector('#id')`). -/
def mutateFirst (f : SVGNode → SVGNode) (id : String) :
    List SVGNode → List SVGNode
  | [] => []
  | n :: rest =>
    if n.nodeId = some id then f n :: rest else n :: mutateFirst f id rest

/-- `_findElement` + mutation for one element of an update: an element
    without an `id` attribute is skipped, otherwise the first matching node
    is mutated in place. -/
def applyUpdate (tr : TransitionCfg) (dom : List SVGNode) (e : RenderElem) :
    List SVGNode :=
  match e.attrId with
  | none => dom
  | some id => mutateFirst (updateNode tr e) id dom

/-- `SVGRenderer.update`: guarded by `_svg` and `isInitialized`; the element
    loop only runs when a transition config is supplied AND elements are
    present; `update` is emitted unconditionally at the end. -/
def svgUpdate (st : RState) (elements : Option (List RenderElem))
    (transition : Option TransitionCfg) : Except String (RState × List Nat) :=
  if !st.svg || !st.isInitialized then
    .error "Renderer must be initialized before updating"
  else
    let st2 :=
      match transition, elements with
      | some tr, some es => { st with dom := es.foldl (applyUpdate tr) st.dom }
      | _, _ => st
    .ok (st2, emit st2 .evUpdate)

/-- `BaseRenderer.destroy`: emits `destroy` first, clears the base layers
    and every event handler, then resets container and initialized state. -/
def baseDestroy (st : RState) : RState × List Nat :=
  let delivered := emit st .evDestroy
  ({ st with baseLayers := [], handlers := [], container := none, isInitialized := false },
    delivered)

/-- `SVGRenderer.destroy`: emits `destroy`, clears and drops every svg
    layer (with their content), removes the `<svg>` root, then calls
    `super.destroy()`. -/
def svgDestroy (st : RState) : RState × List Nat :=
  let d1 := emit st .evDestroy
  let st1 := { st with dom := [], svgLayers := [], svg := false }
  let (st2, d2) := baseDestroy st1
  (st2, d1 ++ d2)

/-- `BaseRenderer.getContainer`. -/
def getContainerModel (st : RState) : Option Unit := st.container

/-- An initialized `SVGRenderer` holding one rendered circle with
    `id = "e1"` at position (50, 50), with one subscriber (callback 0) on
    the `update` event. -/
def updScenario : RState :=
  ⟨true, some (), [], [(.evUpdate, 0)], true, [("test", 1)],
    [⟨some "e1", some 50, some 50, none⟩]⟩

/-- The update payload targeting `"e1"`, moving it to (60, 60). -/
def updElem : RenderElem := ⟨.circle, some 60, some 60, some "e1"⟩

/-- An initialized `SVGRenderer` with a single subscriber (callback 7) on
    the `destroy` event. -/
def destroyScenario : RState :=
  ⟨true, some (), [], [(.evDestroy, 7)], true, [("pitch", 0)],
    [⟨some "e1", some 50, some 50, none⟩]⟩

/-- A base-class-only renderer (its `destroy` is `BaseRenderer.destroy`
    alone) in the same situation: initialized, one `destroy` subscriber. -/
def baseDestroyScenario : RState :=
  ⟨true, some (), [("pitch", 0)], [(.evDestroy, 7)], false, [], []⟩

/-- Adding layers with zIndexes 100, 1, 50 in that order. -/
def layerOpsScenario : List LayerOp :=
  [.add "a" 100, .add "b" 1, .add "c" 50]

end TacticGL

namespace TacticGL

/-! ### Claims C1 and C8: the scale conversions -/

/-- C1 (amended): on every `PitchScale` whose width and height are non-zero,
    `toNormalized (toPixel p) = p` holds exactly (hence within any positive
    relative tolerance), for every point and any padding. -/
theorem toNormalized_toPixel_roundtrip (s : PitchScale) (p : Point)
    (hw : s.dimensions.width ≠ 0) (hh : s.dimensions.height ≠ 0) :
    s.toNormalized (s.toPixel p) = p := by
  simp only [PitchScale.toPixel, PitchScale.toNormalized]
  cases p with
  | mk px py =>
    simp only [Point.mk.injEq]
    constructor
    · field_simp
      ring
    · field_simp
      ring

/-- Round-trip witness: the hypotheses hold on the padded 105×68 scale and the
    round trip returns the input point exactly. -/
theorem toNormalized_toPixel_roundtrip_witness :
    paddedScale.dimensions.width ≠ 0 ∧ paddedScale.dimensions.height ≠ 0 ∧
      paddedScale.toNormalized (paddedScale.toPixel ⟨25, 75⟩) = ⟨25, 75⟩ :=
  ⟨by norm_num [paddedScale], by norm_num [paddedScale],
    toNormalized_toPixel_roundtrip paddedScale ⟨25, 75⟩
      (by norm_num [paddedScale]) (by norm_num [paddedScale])⟩

/-- C1 counterexample: on the constructible scale with width 0 the round trip
    does not return the input point (the source divides by zero there, yielding
    NaN; in the rational model the x coordinate collapses to 0 ≠ 50). -/
theorem roundtrip_fails_at_zero_width :
    zeroWidthScale.toNormalized (zeroWidthScale.toPixel ⟨50, 50⟩) ≠ ⟨50, 50⟩ := by
  simp [zeroWidthScale, DEFAULT_PADDING, PitchScale.toPixel, PitchScale.toNormalized,
    Point.mk.injEq]

/-- C8: `toPixel` computes exactly `(normX/100)*width + paddingLeft` (and the
    y analogue) with no clamping for every input point; `toPixel {0,0}` is
    exactly the padding offset for every configured padding; and on the
    standard 105×68 scale with zero padding, `toPixel {50,50} = {52.5, 34}`
    exactly. -/
theorem toPixel_formula :
    (∀ (s : PitchScale) (p : Point),
        s.toPixel p =
          ⟨p.x / 100 * s.dimensions.width + s.padding.left,
           p.y / 100 * s.dimensions.height + s.padding.top⟩) ∧
    (∀ s : PitchScale, s.toPixel ⟨0, 0⟩ = ⟨s.padding.left, s.padding.top⟩) ∧
    standardScale.toPixel ⟨50, 50⟩ = ⟨105 / 2, 34⟩ := by
  refine ⟨fun s p => rfl, fun s => ?_, ?_⟩
  · simp [PitchScale.toPixel]
  · simp only [standardScale, FIFA_STANDARD_DIMENSIONS, DEFAULT_PADDING, PitchScale.toPixel,
      Point.mk.injEq]
    norm_num

/-! ### Claims C2, C3 and C10: the pitch geometry -/

/-- C2: for every dimensions value and any interpretation of `Math.acos` /
    `Math.PI`, `getPenaltyArc` returns an arc centered on the penalty spot
    with radius the centre-circle radius; its half-angle is
    `acos (dist / R)` with `dist = |penaltyAreaEdgeX - penaltySpotX|` in real
    units: the left arc spans `[-α, α]` and the right arc `[π-α, π+α]`.
    On the standard 105×68 field the left arc's center x is within 0.1 of
    10.48 and `startAngle = -endAngle`. -/
theorem penaltyArc_spec (acos : ℚ → ℚ) (pi : ℚ) (d : Dimensions) :
    (getPenaltyArc acos pi d .horizontal .left).cx =
      some (normalizeX d PENALTY_SPOT_DISTANCE) ∧
    (getPenaltyArc acos pi d .horizontal .right).cx =
      some (100 - normalizeX d PENALTY_SPOT_DISTANCE) ∧
    (∀ side, (getPenaltyArc acos pi d .horizontal side).cy = some 50 ∧
      (getPenaltyArc acos pi d .horizontal side).r =
        some (normalizeX d CENTER_CIRCLE_RADIUS)) ∧
    (∀ side, penaltyArcDist d side =
      |penaltyArcAreaX d side - penaltyArcSpotX d side|) ∧
    (getPenaltyArc acos pi d .horizontal .left).startAngle =
      some (-acos (penaltyArcDist d .left / CENTER_CIRCLE_RADIUS)) ∧
    (getPenaltyArc acos pi d .horizontal .left).endAngle =
      some (acos (penaltyArcDist d .left / CENTER_CIRCLE_RADIUS)) ∧
    (getPenaltyArc acos pi d .horizontal .right).startAngle =
      some (pi - acos (penaltyArcDist d .right / CENTER_CIRCLE_RADIUS)) ∧
    (getPenaltyArc acos pi d .horizontal .right).endAngle =
      some (pi + acos (penaltyArcDist d .right / CENTER_CIRCLE_RADIUS)) ∧
    (∃ c, (getPenaltyArc acos pi FIFA_DIMENSIONS .horizontal .left).cx = some c ∧
      |c - 10.48| ≤ 0.1) ∧
    (getPenaltyArc acos pi FIFA_DIMENSIONS .horizontal .left).startAngle =
      ((getPenaltyArc acos pi FIFA_DIMENSIONS .horizontal .left).endAngle).map (fun a => -a) := by
  refine ⟨rfl, rfl, fun side => ⟨?_, ?_⟩, fun side => rfl, rfl, rfl, rfl, rfl, ?_, rfl⟩
  · cases side <;> rfl
  · cases side <;> rfl
  · refine ⟨normalizeX FIFA_DIMENSIONS PENALTY_SPOT_DISTANCE, rfl, ?_⟩
    simp only [normalizeX, FIFA_DIMENSIONS, PENALTY_SPOT_DISTANCE]
    rw [abs_le]
    norm_num

/-- C3: for every dimensions value, each geometry method's vertical result is
    its horizontal result with the single shared `transform` applied last
    (axis swap for rect/line/circle; center swap plus `+π/2` on both angles
    for arcs); in particular the vertical center line is the horizontal one
    with x/y fields swapped. -/
theorem orientation_transform_shared (acos : ℚ → ℚ) (pi : ℚ) (d : Dimensions) :
    getOutline pi d .vertical = transform pi .vertical (getOutline pi d .horizontal) ∧
    getCenterLine pi d .vertical = transform pi .vertical (getCenterLine pi d .horizontal) ∧
    getCenterCircle pi d .vertical = transform pi .vertical (getCenterCircle pi d .horizontal) ∧
    getCenterSpot pi d .vertical = transform pi .vertical (getCenterSpot pi d .horizontal) ∧
    (∀ side, getPenaltyArea pi d .vertical side =
      transform pi .vertical (getPenaltyArea pi d .horizontal side)) ∧
    (∀ side, getGoalArea pi d .vertical side =
      transform pi .vertical (getGoalArea pi d .horizontal side)) ∧
    (∀ side, getPenaltySpot pi d .vertical side =
      transform pi .vertical (getPenaltySpot pi d .horizontal side)) ∧
    (∀ side, getPenaltyArc acos pi d .vertical side =
      transform pi .vertical (getPenaltyArc acos pi d .horizontal side)) ∧
    getAllGeometries acos pi d .vertical =
      (getAllGeometries acos pi d .horizontal).map (transform pi .vertical) ∧
    (getPenaltyArc acos pi d .vertical .left).startAngle =
      ((getPenaltyArc acos pi d .horizontal .left).startAngle).map (· + pi / 2) ∧
    (getPenaltyArc acos pi d .vertical .left).endAngle =
      ((getPenaltyArc acos pi d .horizontal .left).endAngle).map (· + pi / 2) ∧
    getCenterLine pi d .vertical =
      { getCenterLine pi d .horizontal with
          x1 := (getCenterLine pi d .horizontal).y1,
          y1 := (getCenterLine pi d .horizontal).x1,
          x2 := (getCenterLine pi d .horizontal).y2,
          y2 := (getCenterLine pi d .horizontal).x2 } :=
  ⟨rfl, rfl, rfl, rfl, fun side => by cases side <;> rfl, fun side => by cases side <;> rfl,
    fun side => by cases side <;> rfl, fun side => by cases side <;> rfl, rfl, rfl, rfl, rfl⟩

/-- C10: for every dimensions value and both sides, the spot-to-area distance
    computed inside `getPenaltyArc` is the constant `|16.5 - 11| = 5.5`, so
    the argument handed to the unguarded `Math.acos` is the constant
    `5.5 / 9.15 = 110/183`, which lies in `[0, 1]`: the computed angles are
    values of `acos` on a legal argument and are never NaN. -/
theorem penaltyArc_acos_arg_in_range (d : Dimensions) (side : Side) :
    penaltyArcDist d side = |PENALTY_AREA.width - PENALTY_SPOT_DISTANCE| ∧
    penaltyArcAcosArg d side = 110 / 183 ∧
    0 ≤ penaltyArcAcosArg d side ∧ penaltyArcAcosArg d side ≤ 1 := by
  have habs : |(11 : ℚ) / 2| = 11 / 2 := abs_of_nonneg (by norm_num)
  have hdist : penaltyArcDist d side = 11 / 2 := by
    cases side
    · simp only [penaltyArcDist, penaltyArcAreaX, penaltyArcSpotX, PENALTY_AREA,
        PENALTY_SPOT_DISTANCE]
      rw [show (16.5 : ℚ) - 11 = 11 / 2 by norm_num, habs]
    · simp only [penaltyArcDist, penaltyArcAreaX, penaltyArcSpotX, PENALTY_AREA,
        PENALTY_SPOT_DISTANCE]
      rw [show d.width - (16.5 : ℚ) - (d.width - 11) = -(11 / 2) by ring, abs_neg, habs]
  have harg : penaltyArcAcosArg d side = 110 / 183 := by
    rw [penaltyArcAcosArg, hdist, CENTER_CIRCLE_RADIUS]
    norm_num
  refine ⟨?_, harg, ?_, ?_⟩
  · rw [hdist]
    simp only [PENALTY_AREA, PENALTY_SPOT_DISTANCE]
    rw [show (16.5 : ℚ) - 11 = 11 / 2 by norm_num, habs]
  · rw [harg]
    norm_num
  · rw [harg]
    norm_num

end TacticGL

namespace TacticGL

/-! ### Claim C4: engine backend selection and fallback -/

/-- C4: in a browser where WebGL is unavailable but Canvas probes as
    supported, requesting `webgl` without `force` does NOT terminate at the
    SVG baseline: `_fallback` picks `canvas` and `_createRenderer` throws
    the plain `Error('CanvasRenderer is not yet implemented')`.  The typed
    `RendererNotSupportedError` is thrown only on the `force` path, and the
    fallback does reach SVG when canvas is also unavailable. -/
theorem fallback_throws_on_supported_canvas :
    selectRenderer envCanvasOnly (.want .webgl) false =
      .error (.notYetImplemented .canvas) ∧
    (∀ sel : Selection, selectRenderer envCanvasOnly (.want .webgl) false ≠ .ok sel) ∧
    selectRenderer envCanvasOnly (.want .webgl) true =
      .error (.rendererNotSupported .webgl) ∧
    selectRenderer envSvgOnly (.want .webgl) false = .ok ⟨.svg, true⟩ :=
  ⟨rfl, fun _ h => Except.noConfusion h, rfl, rfl⟩

/-! ### Claims C5, C6, C7: renderer update, destroy and lifecycle guards -/

/-- C5 counterexample: on an initialized renderer holding a node with
    id "e1" at x = 50, an `update` carrying that id with x = 60 but NO
    transition config leaves the node untouched (the state is returned
    unchanged) while still emitting `update` — the claim's "mutates its
    position in place, a transition only adds a hint" is false here. -/
theorem update_without_transition_mutates_nothing :
    svgUpdate updScenario (some [updElem]) none = .ok (updScenario, [0]) ∧
    updScenario.dom.map SVGNode.posX = [some 50] ∧
    updElem.x = some 60 ∧
    ¬ ∃ st2 ds, svgUpdate updScenario (some [updElem]) none = .ok (st2, ds) ∧
        st2.dom.map SVGNode.posX = [some 60] := by
  refine ⟨rfl, rfl, rfl, ?_⟩
  rintro ⟨st2, ds, h1, h2⟩
  rw [show svgUpdate updScenario (some [updElem]) none = .ok (updScenario, [0]) from rfl]
    at h1
  injection h1 with hpair
  injection hpair with hst hds
  rw [← hst] at h2
  rw [show updScenario.dom.map SVGNode.posX = [some 50] from rfl] at h2
  injection h2 with hhead _
  injection hhead with hval
  norm_num at hval

/-- C5 (amended): on an initialized renderer, `update` mutates the DOM only
    when a transition config is supplied: without one the state is returned
    unchanged; with one, each element carrying an `id` attribute mutates the
    first matching node in place and elements without an `id` are silently
    skipped; the `update` event is emitted unconditionally in every case. -/
theorem update_spec (st : RState) (es : List RenderElem)
    (hsvg : st.svg = true) (hinit : st.isInitialized = true) :
    svgUpdate st (some es) none = .ok (st, emit st .evUpdate) ∧
    (∀ tr, svgUpdate st (some es) (some tr) =
      .ok ({ st with dom := es.foldl (applyUpdate tr) st.dom }, emit st .evUpdate)) ∧
    (∀ tr, svgUpdate st none (some tr) = .ok (st, emit st .evUpdate)) ∧
    (∀ tr dom e, e.attrId = none → applyUpdate tr dom e = dom) ∧
    (∀ tr e id dom, e.attrId = some id →
      applyUpdate tr dom e = mutateFirst (updateNode tr e) id dom) := by
  have hguard : (!st.svg || !st.isInitialized) = false := by
    rw [hsvg, hinit]
    rfl
  refine ⟨?_, fun tr => ?_, fun tr => ?_, fun tr dom e he => ?_, fun tr e id dom he => ?_⟩
  · simp only [svgUpdate, hguard, Bool.false_eq_true, if_false]
  · simp only [svgUpdate, hguard, Bool.false_eq_true, if_false]
    rfl
  · simp only [svgUpdate, hguard, Bool.false_eq_true, if_false]
  · simp only [applyUpdate, he]
  · simp only [applyUpdate, he]

/-- Witness for the amended C5 theorem at the concrete scenario. -/
theorem update_spec_witness :
    updScenario.svg = true ∧ updScenario.isInitialized = true ∧
    svgUpdate updScenario (some [updElem]) none = .ok (updScenario, emit updScenario .evUpdate) :=
  ⟨rfl, rfl, (update_spec updScenario [updElem] rfl rfl).1⟩

/-- C6: on an initialized `SVGRenderer` with one `destroy` subscriber
    (callback 7), `destroy()` delivers the `destroy` event to that
    subscriber TWICE — once from `SVGRenderer.destroy`'s own emit and once
    from `super.destroy()`'s emit, which runs before the handlers are
    cleared.  A base-class-only renderer delivers it exactly once.  The
    rest of the contract holds: afterwards the layers, handlers, container
    and initialized flag are all cleared. -/
theorem svg_destroy_delivers_twice :
    (svgDestroy destroyScenario).2 = [7, 7] ∧
    (baseDestroy baseDestroyScenario).2 = [7] ∧
    (svgDestroy destroyScenario).1.handlers = [] ∧
    (svgDestroy destroyScenario).1.svgLayers = [] ∧
    (svgDestroy destroyScenario).1.dom = [] ∧
    (svgDestroy destroyScenario).1.container = none ∧
    (svgDestroy destroyScenario).1.isInitialized = false ∧
    (∀ ev, emit (svgDestroy destroyScenario).1 ev = []) :=
  ⟨rfl, rfl, rfl, rfl, rfl, rfl, rfl, fun _ => rfl⟩

/-- C7: `render`/`update` throw on any renderer that is not initialized (in
    particular a fresh one); after `destroy()` they throw again, while
    `getContainer()` returns null and `getLayers()` is empty. -/
theorem lifecycle_guards (st : RState) (h : st.isInitialized = false) :
    (∀ es, svgRender st es = .error "Renderer must be initialized before rendering") ∧
    (∀ es tr, svgUpdate st es tr = .error "Renderer must be initialized before updating") ∧
    (∀ st0 es, svgRender (svgDestroy st0).1 es =
      .error "Renderer must be initialized before rendering") ∧
    (∀ st0 es tr, svgUpdate (svgDestroy st0).1 es tr =
      .error "Renderer must be initialized before updating") ∧
    (∀ st0, getContainerModel (svgDestroy st0).1 = none) ∧
    (∀ st0, getLayersModel (svgDestroy st0).1 = []) := by
  refine ⟨fun es => ?_, fun es tr => ?_, fun st0 es => rfl, fun st0 es tr => rfl,
    fun st0 => rfl, fun st0 => rfl⟩
  · simp only [svgRender, h, Bool.not_false, Bool.or_true, if_true]
  · simp only [svgUpdate, h, Bool.not_false, Bool.or_true, if_true]

/-- Witness for the lifecycle-guard theorem on a freshly constructed
    renderer. -/
theorem lifecycle_guards_witness :
    freshState.isInitialized = false ∧
    svgRender freshState none = .error "Renderer must be initialized before rendering" :=
  ⟨rfl, (lifecycle_guards freshState rfl).1 none⟩

/-! ### Claim C9: layer registry ordering and uniqueness -/

theorem filter_z_orderedInsert (z : Int) (p : String × Int) :
    ∀ l : List (String × Int),
      (l.orderedInsert (fun a b => a.2 ≤ b.2) p).filter (fun q => decide (q.2 = z)) =
        if p.2 = z then p :: l.filter (fun q => decide (q.2 = z))
        else l.filter (fun q => decide (q.2 = z))
  | [] => by
    by_cases hp : p.2 = z <;> simp [List.orderedInsert, hp]
  | q :: rest => by
    simp only [List.orderedInsert]
    by_cases hle : p.2 ≤ q.2
    · rw [if_pos hle]
      by_cases hp : p.2 = z <;> by_cases hq : q.2 = z <;>
        simp [List.filter_cons, hp, hq]
    · rw [if_neg hle]
      have ih := filter_z_orderedInsert z p rest
      by_cases hq : q.2 = z
      · by_cases hp : p.2 = z
        · exact absurd (le_of_eq (hp.trans hq.symm)) hle
        · simp [List.filter_cons, hq, hp, ih]
      · simp [List.filter_cons, hq, ih]

theorem filter_z_sortLayers (z : Int) :
    ∀ l : List (String × Int),
      (sortLayers l).filter (fun q => decide (q.2 = z)) =
        l.filter (fun q => decide (q.2 = z))
  | [] => rfl
  | p :: rest => by
    rw [show sortLayers (p :: rest) =
      (sortLayers rest).orderedInsert (fun a b => a.2 ≤ b.2) p from rfl]
    rw [filter_z_orderedInsert, filter_z_sortLayers z rest]
    by_cases hp : p.2 = z <;> simp [List.filter_cons, hp]

theorem setLayer_keys_nodup (l : List (String × Int)) (id : String) (z : Int)
    (h : (l.map Prod.fst).Nodup) : ((setLayer l id z).map Prod.fst).Nodup := by
  unfold setLayer
  by_cases hmem : l.any (fun p => decide (p.1 = id)) = true
  · rw [if_pos hmem]
    have hmap : (l.map (fun p => if p.1 = id then (id, z) else p)).map Prod.fst =
        l.map Prod.fst := by
      rw [List.map_map]
      apply List.map_congr_left
      intro a _
      by_cases ha : a.1 = id
      · simp [ha]
      · simp [ha]
    rw [hmap]
    exact h
  · rw [if_neg hmem]
    rw [List.map_append]
    refine h.append (List.nodup_singleton id) ?_
    intro a hal har
    simp only [List.map_cons, List.map_nil, List.mem_singleton] at har
    subst har
    rw [List.mem_map] at hal
    obtain ⟨p, hp, hpa⟩ := hal
    exact hmem (List.any_eq_true.mpr ⟨p, hp, by simp [hpa]⟩)

theorem deleteLayer_keys_nodup (l : List (String × Int)) (id : String)
    (h : (l.map Prod.fst).Nodup) : ((deleteLayer l id).map Prod.fst).Nodup :=
  ((List.filter_sublist l).map Prod.fst).nodup h

theorem applyLayerOps_aux_nodup (ops : List LayerOp) :
    ∀ l : List (String × Int), (l.map Prod.fst).Nodup →
      ((ops.foldl (fun l op =>
        match op with
        | .add id z => setLayer l id z
        | .remove id => deleteLayer l id) l).map Prod.fst).Nodup := by
  induction ops with
  | nil => exact fun l h => h
  | cons op rest ih =>
    intro l h
    rw [List.foldl_cons]
    cases op with
    | add id z => exact ih _ (setLayer_keys_nodup l id z h)
    | remove id => exact ih _ (deleteLayer_keys_nodup l id h)

/-- C9: `getLayers()` sorts ascending by zIndex (the result is pairwise
    `≤` on zIndex), returns exactly the registered layers (a permutation),
    keeps ties in insertion order (filtering at any zIndex commutes with
    the sort), every registry reachable by add/remove operations has at
    most one layer per id, and adding zIndexes [100, 1, 50] in that order
    yields them ordered [1, 50, 100]. -/
theorem getLayers_sorted_unique (l : List (String × Int)) (z : Int)
    (ops : List LayerOp) :
    (sortLayers l).Sorted (fun a b => a.2 ≤ b.2) ∧
    (sortLayers l).Perm l ∧
    (sortLayers l).filter (fun q => decide (q.2 = z)) =
      l.filter (fun q => decide (q.2 = z)) ∧
    ((applyLayerOps ops).map Prod.fst).Nodup ∧
    sortLayers (applyLayerOps layerOpsScenario) = [("b", 1), ("c", 50), ("a", 100)] := by
  refine ⟨?_, ?_, filter_z_sortLayers z l, applyLayerOps_aux_nodup ops [] List.nodup_nil, ?_⟩
  · haveI : IsTotal (String × Int) (fun a b => a.2 ≤ b.2) := ⟨fun a b => le_total a.2 b.2⟩
    haveI : IsTrans (String × Int) (fun a b => a.2 ≤ b.2) :=
      ⟨fun _ _ _ hab hbc => le_trans hab hbc⟩
    exact List.sorted_insertionSort _ l
  · exact List.perm_insertionSort _ l
  · decide

end TacticGL
